import Mathlib

/-!
Verification development for the cerealbar training fragment:
`agent/learning/training.py` (the `train` driver) and
`agent/model/model_wrappers/model_wrapper.py` (the `ModelWrapper` base class).

Python strings are modelled as `String` / `List Char`; the filesystem as an
association list from filenames to stored parameter sets; side effects of the
driver as an explicit event trace; runtime faults (NameError, AssertionError,
missing attributes) as `Option`/error values.
-/

/-! ## Python string splitting and joining

`training.py` computes the pretrained-vocabulary directory as
`'/'.join(filepath.split('/')[:-1])`.  `pySplitChar` models Python's
`str.split` with an explicit one-character separator, and `pyJoin` models
`sep.join` for a one-character separator.
-/

/-- Python `s.split(c)` for a single-character separator `c`, on the
character list of `s`: `"".split(c) = [""]`, and each occurrence of `c`
starts a new (possibly empty) field. -/
def pySplitChar (c : Char) : List Char → List (List Char)
  | [] => [[]]
  | x :: xs =>
    let rest := pySplitChar c xs
    if x = c then
      [] :: rest
    else
      match rest with
      | [] => [[x]]
      | y :: ys => (x :: y) :: ys

/-- Python `c.join(parts)` for a single-character separator `c`. -/
def pyJoin (c : Char) : List (List Char) → List Char
  | [] => []
  | [s] => s
  | s :: rest => s ++ c :: pyJoin c rest

/-- The vocabulary directory computed by `train` (training.py line 71-72):
`'/'.join(filepath.split('/')[:-1])`, on character lists.  Python's `[:-1]`
is `List.dropLast`. -/
def vocabFileChars (filepath : List Char) : List Char :=
  pyJoin '/' ((pySplitChar '/' filepath).dropLast)

/-- The same computation on `String`s, as used by the driver model. -/
def vocabFileOf (filepath : String) : String :=
  ⟨vocabFileChars filepath.data⟩

/-- Lemma: `pySplitChar` never returns the empty list of fields. -/
theorem pySplitChar_ne_nil (c : Char) (l : List Char) : pySplitChar c l ≠ [] := by
  induction l with
  | nil => simp [pySplitChar]
  | cons x xs ih =>
    simp only [pySplitChar]
    by_cases hx : x = c
    · simp [hx]
    · simp only [hx, if_false]
      cases h : pySplitChar c xs with
      | nil => simp
      | cons y ys => simp

/-- Splitting a list that does not contain the separator yields the one-field
result `[l]`. -/
theorem pySplitChar_of_not_mem {c : Char} {l : List Char} (h : c ∉ l) :
    pySplitChar c l = [l] := by
  induction l with
  | nil => rfl
  | cons x xs ih =>
    simp only [List.mem_cons, not_or] at h
    have hx : x ≠ c := fun hxc => h.1 hxc.symm
    simp only [pySplitChar, hx, if_false, ih h.2]

/-- No field returned by `pySplitChar` contains the separator. -/
theorem not_mem_of_mem_pySplitChar (c : Char) (l : List Char) :
    ∀ s ∈ pySplitChar c l, c ∉ s := by
  induction l with
  | nil =>
    intro s hs
    simp [pySplitChar] at hs
    simp [hs]
  | cons x xs ih =>
    intro s hs
    simp only [pySplitChar] at hs
    by_cases hx : x = c
    · simp only [hx, if_true, List.mem_cons] at hs
      rcases hs with hs | hs
      · simp [hs]
      · exact ih s hs
    · simp only [hx, if_false] at hs
      cases h : pySplitChar c xs with
      | nil => exact absurd h (pySplitChar_ne_nil c xs)
      | cons y ys =>
        rw [h] at hs
        simp only [List.mem_cons] at hs
        rcases hs with hs | hs
        · subst hs
          intro hmem
          rcases List.mem_cons.mp hmem with hc | hc
          · exact hx hc.symm
          · exact ih y (h ▸ List.mem_cons_self y ys) hc
        · exact ih s (h ▸ List.mem_cons.mpr (Or.inr hs))

/-- Joining the fields of a split recovers the original list:
`c.join(l.split(c)) = l`. -/
theorem pyJoin_pySplitChar (c : Char) (l : List Char) :
    pyJoin c (pySplitChar c l) = l := by
  induction l with
  | nil => rfl
  | cons x xs ih =>
    simp only [pySplitChar]
    by_cases hx : x = c
    · subst hx
      simp only [if_true]
      cases h : pySplitChar x xs with
      | nil => exact absurd h (pySplitChar_ne_nil x xs)
      | cons y ys =>
        rw [h] at ih
        simp [pyJoin, ih]
    · simp only [hx, if_false]
      cases h : pySplitChar c xs with
      | nil => exact absurd h (pySplitChar_ne_nil c xs)
      | cons y ys =>
        rw [h] at ih
        cases ys with
        | nil =>
          simp [pyJoin] at ih ⊢
          exact ih
        | cons z zs =>
          simp only [pyJoin, List.cons_append] at ih ⊢
          simpa using ih

/-- Lemma: `pyJoin` on a list of at least two fields separates the head field from
the rest with one separator. -/
theorem pyJoin_cons_cons (c : Char) (a b : List Char) (t : List (List Char)) :
    pyJoin c (a :: b :: t) = a ++ c :: pyJoin c (b :: t) := rfl

/-- Joining a non-empty prefix extended by one last field splits off that
field across one separator. -/
theorem pyJoin_append_singleton (c : Char) (init : List (List Char))
    (last : List Char) (h : init ≠ []) :
    pyJoin c (init ++ [last]) = pyJoin c init ++ c :: last := by
  induction init with
  | nil => exact absurd rfl h
  | cons a t ih =>
    cases t with
    | nil => simp [pyJoin]
    | cons b u =>
      have hih := ih (by simp)
      calc pyJoin c ((a :: b :: u) ++ [last])
          = a ++ c :: pyJoin c ((b :: u) ++ [last]) := by
            simp only [List.cons_append]
            rw [pyJoin_cons_cons]
        _ = a ++ c :: (pyJoin c (b :: u) ++ c :: last) := by rw [hih]
        _ = pyJoin c (a :: b :: u) ++ c :: last := by
            rw [pyJoin_cons_cons, List.append_assoc]
            rfl

/-- If the separator occurs in `l`, splitting yields at least two fields. -/
theorem pySplitChar_length_ge_two {c : Char} {l : List Char} (h : c ∈ l) :
    2 ≤ (pySplitChar c l).length := by
  rcases hsp : pySplitChar c l with _ | ⟨s, _ | ⟨s', t'⟩⟩
  · exact absurd hsp (pySplitChar_ne_nil c l)
  · exfalso
    have hl : pyJoin c (pySplitChar c l) = l := pyJoin_pySplitChar c l
    rw [hsp] at hl
    simp only [pyJoin] at hl
    have hnm : c ∉ s :=
      not_mem_of_mem_pySplitChar c l s (by rw [hsp]; exact List.mem_cons_self s [])
    rw [hl] at hnm
    exact hnm h
  · simp

/-- C10: the pretrained-vocabulary source directory is
`'/'.join(filepath.split('/')[:-1])`: when the filepath contains no `'/'`
the computed directory is the empty string, and when it contains a `'/'`
the filepath decomposes as the computed directory, one `'/'`, and a final
slash-free component (the directory is the substring before the last `'/'`). -/
theorem vocabFile_spec (fp : String) :
    ('/' ∉ fp.data → vocabFileOf fp = "") ∧
    ('/' ∈ fp.data →
      '/' ∉ (pySplitChar '/' fp.data).getLast (pySplitChar_ne_nil '/' fp.data) ∧
      fp.data = (vocabFileOf fp).data ++
        '/' :: (pySplitChar '/' fp.data).getLast (pySplitChar_ne_nil '/' fp.data)) := by
  constructor
  · intro h
    have hs : pySplitChar '/' fp.data = [fp.data] := pySplitChar_of_not_mem h
    simp only [vocabFileOf, vocabFileChars, hs, List.dropLast_single]
    rfl
  · intro h
    have hne : pySplitChar '/' fp.data ≠ [] := pySplitChar_ne_nil '/' fp.data
    have hlen : 2 ≤ (pySplitChar '/' fp.data).length := pySplitChar_length_ge_two h
    set parts := pySplitChar '/' fp.data with hparts
    refine ⟨?_, ?_⟩
    · exact not_mem_of_mem_pySplitChar '/' fp.data _ (List.getLast_mem hne)
    · have hdecomp : parts.dropLast ++ [parts.getLast hne] = parts :=
        List.dropLast_append_getLast hne
      have hinit_ne : parts.dropLast ≠ [] := by
        intro hnil
        have := List.length_dropLast parts
        rw [hnil] at this
        simp at this
        omega
      have hjoin : pyJoin '/' parts = fp.data := pyJoin_pySplitChar '/' fp.data
      calc fp.data = pyJoin '/' parts := hjoin.symm
        _ = pyJoin '/' (parts.dropLast ++ [parts.getLast hne]) := by rw [hdecomp]
        _ = pyJoin '/' parts.dropLast ++ '/' :: parts.getLast hne :=
            pyJoin_append_singleton '/' _ _ hinit_ne
        _ = (vocabFileOf fp).data ++ '/' :: parts.getLast hne := rfl

/-- Witness for C10 at concrete filepaths: a slashless path yields the empty
directory, and a path with a slash decomposes around its last slash. -/
theorem vocabFile_spec_witness :
    vocabFileOf "model.pt" = "" ∧
    "dir/model.pt".data = (vocabFileOf "dir/model.pt").data ++
      '/' :: (pySplitChar '/' "dir/model.pt".data).getLast
        (pySplitChar_ne_nil '/' "dir/model.pt".data) :=
  ⟨(vocabFile_spec "model.pt").1 (by decide),
   ((vocabFile_spec "dir/model.pt").2 (by decide)).2⟩

/-! ## The model-wrapper abstraction (`model_wrapper.py`)

`ModelWrapper` owns one underlying trainable module, optionally wrapped in a
data-parallel container.  The underlying module, the parallel container and
the filesystem are modelled explicitly; attribute/method accesses that would
raise in Python (`.module` on a plain module, `.save` on the parallel
container) return `none`.
-/

namespace Cerealbar

/-- Modelled from the spec: the configuration task enum (`model_args.Task`,
whose defining file is not part of this fragment).  Only the two members the
fragment references are named; `OTHER` stands for any other member. -/
inductive Task where
  | PLAN_PREDICTOR
  | ACTION_GENERATOR
  | OTHER
deriving DecidableEq, Repr

/-- Modelled from the spec: the model-arguments configuration
(`model_args.ModelArgs`, not part of this fragment) carries the configured
task, read via `get_task`. -/
structure ModelArgs where
  task : Task
deriving DecidableEq, Repr

/-- Modelled from the spec: `model_arguments.get_task()` returns the
configured task. -/
def ModelArgs.get_task (a : ModelArgs) : Task := a.task

/-- Parameter values of a module stand in for tensors; a parameter set is a
named association list. -/
abbrev Params := List (String × Nat)

/-- The filesystem: checkpoint files mapped to the parameter sets stored in
them (newest write first). -/
abbrev FS := List (String × Params)

/-- Modelled from the spec: a concrete underlying trainable module.  It owns
a parameter set and a training/inference mode flag; `save`/`load` persist and
restore exactly its parameters. -/
structure Module where
  params : Params
  training : Bool
deriving DecidableEq, Repr

/-- Modelled from the spec: `module.save(filename)` persists the module's
parameters to the file. -/
def Module.save (m : Module) (filename : String) (fs : FS) : FS :=
  (filename, m.params) :: fs

/-- Modelled from the spec: `module.load(filename)` restores the module's
parameters from the file; a missing file is a fault. -/
def Module.load (m : Module) (filename : String) (fs : FS) : Option Module :=
  (fs.lookup filename).map (fun ps => { m with params := ps })

/-- The result of the module's inference entry point: determined by the
module's parameters and the call arguments. -/
structure Prediction where
  params : Params
  callArgs : List Nat
deriving DecidableEq, Repr

/-- Modelled from the spec: `module.get_predictions(*args)` is the module's
inference entry point. -/
def Module.get_predictions (m : Module) (a : List Nat) : Prediction :=
  ⟨m.params, a⟩

/-- Model of `module.train()` / `module.eval()`: they set the training-mode flag. -/
def Module.setTraining (m : Module) (b : Bool) : Module :=
  { m with training := b }

/-- The object held in the wrapper's `_model` attribute: either the plain
module or a data-parallel container (`nn.DataParallel`) around it. -/
inductive WrappedModule where
  | raw (m : Module)
  | dataParallel (inner : WrappedModule)
deriving DecidableEq, Repr

/-- Model of `nn.Module.parameters()`: the data-parallel container has no parameters
of its own and recurses into the wrapped module, so it yields exactly the
inner module's parameter values. -/
def WrappedModule.parameters : WrappedModule → List Nat
  | .raw m => m.params.map Prod.snd
  | .dataParallel inner => inner.parameters

/-- Model of `nn.Module.named_parameters()`: the data-parallel container prefixes
every name with `"module."`. -/
def WrappedModule.named_parameters : WrappedModule → Params
  | .raw m => m.params
  | .dataParallel inner =>
      inner.named_parameters.map (fun p => ("module." ++ p.1, p.2))

/-- Model of `nn.Module.train(mode)` / `.eval()`: they recurse into children. -/
def WrappedModule.setTraining : WrappedModule → Bool → WrappedModule
  | .raw m, b => .raw (m.setTraining b)
  | .dataParallel inner, b => .dataParallel (inner.setTraining b)

/-- The `.module` attribute: only the data-parallel container has it. -/
def WrappedModule.module : WrappedModule → Option WrappedModule
  | .dataParallel inner => some inner
  | .raw _ => none

/-- Calling `.save(filename)`: defined by the concrete model class only, not
by the data-parallel container. -/
def WrappedModule.saveMethod : WrappedModule → String → FS → Option FS
  | .raw m, filename, fs => some (m.save filename fs)
  | .dataParallel _, _, _ => none

/-- Calling `.load(filename)`: defined by the concrete model class only. -/
def WrappedModule.loadMethod : WrappedModule → String → FS → Option WrappedModule
  | .raw m, filename, fs => (m.load filename fs).map .raw
  | .dataParallel _, _, _ => none

/-- Calling `.get_predictions(*args)`: defined by the concrete model class
only. -/
def WrappedModule.get_predictionsMethod : WrappedModule → List Nat → Option Prediction
  | .raw m, a => some (m.get_predictions a)
  | .dataParallel _, _ => none

/-- Apply an update to the underlying module through any parallel wrapping. -/
def WrappedModule.mapModule (g : Module → Module) : WrappedModule → WrappedModule
  | .raw m => .raw (g m)
  | .dataParallel inner => .dataParallel (inner.mapModule g)

/-- The `ModelWrapper` state: configuration, the task read at construction,
the parallelization flag, and the owned module (absent right after
`__init__`). -/
structure ModelWrapper where
  args : ModelArgs
  task : Task
  parallelized : Bool
  model : Option WrappedModule
deriving DecidableEq, Repr

/-- Model of `ModelWrapper.__init__` (model_wrapper.py lines 24-37): stores the
arguments, reads the task from them, sets `_parallelized` to `False` and
flips it to `True` when more than one compute device is available; the model
is attached later by the concrete subclass. -/
def ModelWrapper.init (model_arguments : ModelArgs) (deviceCount : Nat) : ModelWrapper :=
  { args := model_arguments
    task := model_arguments.get_task
    parallelized := if deviceCount > 1 then true else false
    model := none }

/-- Model of `_put_on_device` (lines 42-50): when parallelized, replace `_model` by a
data-parallel container around it.  The `.cuda()` device placement and the
parameter-location logging do not change the parameter data and are not
modelled; calling this with no model attached is a fault. -/
def ModelWrapper.put_on_device (w : ModelWrapper) : Option ModelWrapper :=
  match w.model with
  | none => none
  | some wm =>
      some (if w.parallelized then { w with model := some (.dataParallel wm) } else w)

/-- Modelled from the spec: a concrete wrapper subclass constructs the
underlying module, attaches it to `_model`, and calls `_put_on_device`. -/
def mkModelWrapper (model_arguments : ModelArgs) (deviceCount : Nat) (m : Module) :
    Option ModelWrapper :=
  ModelWrapper.put_on_device
    { ModelWrapper.init model_arguments deviceCount with model := some (.raw m) }

/-- Model of `named_parameters` (lines 64-68): unwrap the parallel container via
`.module` when parallelized, otherwise read the model's parameters directly. -/
def ModelWrapper.named_parameters (w : ModelWrapper) : Option Params :=
  match w.model with
  | none => none
  | some wm =>
      if w.parallelized then
        (wm.module).map WrappedModule.named_parameters
      else
        some wm.named_parameters

/-- Model of `get_arguments` (lines 70-71). -/
def ModelWrapper.get_arguments (w : ModelWrapper) : ModelArgs := w.args

/-- Model of `parameters` (lines 73-74): always `self._model.parameters()`, with no
branch on the parallelization flag. -/
def ModelWrapper.parameters (w : ModelWrapper) : Option (List Nat) :=
  w.model.map WrappedModule.parameters

/-- Model of `train` (lines 76-77): put the owned model in training mode; the state
effect is the updated wrapper. -/
def ModelWrapper.train (w : ModelWrapper) : Option ModelWrapper :=
  w.model.map (fun wm => { w with model := some (wm.setTraining true) })

/-- Model of `eval` (lines 79-80): put the owned model in inference mode. -/
def ModelWrapper.eval (w : ModelWrapper) : Option ModelWrapper :=
  w.model.map (fun wm => { w with model := some (wm.setTraining false) })

/-- Model of `load` (lines 82-86): call `load` on `self._model.module` when
parallelized, else on `self._model` directly. -/
def ModelWrapper.load (w : ModelWrapper) (filename : String) (fs : FS) :
    Option ModelWrapper :=
  match w.model with
  | none => none
  | some wm =>
      if w.parallelized then
        (wm.module).bind (fun inner =>
          (inner.loadMethod filename fs).map
            (fun inner2 => { w with model := some (.dataParallel inner2) }))
      else
        (wm.loadMethod filename fs).map (fun wm2 => { w with model := some wm2 })

/-- Model of `save` (lines 88-92): call `save` on `self._model.module` when
parallelized, else on `self._model` directly. -/
def ModelWrapper.save (w : ModelWrapper) (filename : String) (fs : FS) : Option FS :=
  match w.model with
  | none => none
  | some wm =>
      if w.parallelized then
        (wm.module).bind (fun inner => inner.saveMethod filename fs)
      else
        wm.saveMethod filename fs

/-- Model of `get_predictions` (lines 94-99): bypass the parallel container via
`.module` when parallelized, and return the module's result unchanged. -/
def ModelWrapper.get_predictions (w : ModelWrapper) (a : List Nat) : Option Prediction :=
  match w.model with
  | none => none
  | some wm =>
      if w.parallelized then
        (wm.module).bind (fun inner => inner.get_predictionsMethod a)
      else
        wm.get_predictionsMethod a

/-- Model of `get_task` (lines 101-102). -/
def ModelWrapper.get_task (w : ModelWrapper) : Task := w.task

/-- Modelled from the spec: `train_loop` runs the optimization procedure —
repeated mode toggles and parameter updates of the owned module — and
returns the filesystem path of the best checkpoint found; it touches no
wrapper state besides the owned module. -/
def ModelWrapper.train_loop (w : ModelWrapper) (optimize : Module → Module)
    (bestEpochFilename : String) : ModelWrapper × String :=
  ({ w with model := w.model.map (WrappedModule.mapModule optimize) }, bestEpochFilename)

end Cerealbar

namespace Cerealbar

/-! ## Shape lemmas: every wrapper operation only updates the owned model -/

/-- Lemma: `_put_on_device` only replaces the owned model. -/
theorem put_on_device_shape {w w' : ModelWrapper} (h : w.put_on_device = some w') :
    ∃ mo, w' = { w with model := mo } := by
  unfold ModelWrapper.put_on_device at h
  cases hm : w.model with
  | none => rw [hm] at h; exact absurd h (by simp)
  | some wm =>
    rw [hm] at h
    dsimp only at h
    by_cases hp : w.parallelized = true
    · rw [if_pos hp] at h
      exact ⟨some (.dataParallel wm), (Option.some.inj h).symm⟩
    · rw [if_neg hp] at h
      exact ⟨w.model, (Option.some.inj h).symm⟩

/-- Lemma: `train` only replaces the owned model. -/
theorem train_shape {w w' : ModelWrapper} (h : w.train = some w') :
    ∃ mo, w' = { w with model := mo } := by
  cases hm : w.model with
  | none => simp [ModelWrapper.train, hm] at h
  | some wm =>
    simp only [ModelWrapper.train, hm, Option.map_some'] at h
    exact ⟨some (wm.setTraining true), (Option.some.inj h).symm⟩

/-- Lemma: `eval` only replaces the owned model. -/
theorem eval_shape {w w' : ModelWrapper} (h : w.eval = some w') :
    ∃ mo, w' = { w with model := mo } := by
  cases hm : w.model with
  | none => simp [ModelWrapper.eval, hm] at h
  | some wm =>
    simp only [ModelWrapper.eval, hm, Option.map_some'] at h
    exact ⟨some (wm.setTraining false), (Option.some.inj h).symm⟩

/-- Lemma: `load` only replaces the owned model. -/
theorem load_shape {w w' : ModelWrapper} {filename : String} {fs : FS}
    (h : w.load filename fs = some w') :
    ∃ mo, w' = { w with model := mo } := by
  cases hm : w.model with
  | none => simp [ModelWrapper.load, hm] at h
  | some wm =>
    by_cases hp : w.parallelized = true
    · simp only [ModelWrapper.load, hm, if_pos hp, Option.bind_eq_some,
        Option.map_eq_some'] at h
      obtain ⟨inner, _, inner2, _, hw⟩ := h
      exact ⟨some (.dataParallel inner2), hw.symm⟩
    · simp only [ModelWrapper.load, hm, if_neg hp, Option.map_eq_some'] at h
      obtain ⟨wm2, _, hw⟩ := h
      exact ⟨some wm2, hw.symm⟩

/-! ## Construction lemmas -/

/-- With more than one device, construction yields a parallelized wrapper
holding the module inside a data-parallel container. -/
theorem mkModelWrapper_parallel (margs : ModelArgs) {dc : Nat} (h : 1 < dc)
    (m : Module) :
    mkModelWrapper margs dc m =
      some ⟨margs, margs.task, true, some (.dataParallel (.raw m))⟩ := by
  unfold mkModelWrapper ModelWrapper.init ModelWrapper.put_on_device
  simp [ModelArgs.get_task, h]

/-- With at most one device, construction yields an unparallelized wrapper
holding the plain module. -/
theorem mkModelWrapper_serial (margs : ModelArgs) {dc : Nat} (h : ¬ 1 < dc)
    (m : Module) :
    mkModelWrapper margs dc m =
      some ⟨margs, margs.task, false, some (.raw m)⟩ := by
  unfold mkModelWrapper ModelWrapper.init ModelWrapper.put_on_device
  simp [ModelArgs.get_task, h]

end Cerealbar

namespace Cerealbar

/-! ## Concrete instances used by witnesses -/

/-- A concrete model-arguments configuration. -/
def exArgs : ModelArgs := ⟨Task.ACTION_GENERATOR⟩

/-- A concrete underlying module. -/
def exModule : Module := ⟨[("weight", 3), ("bias", 4)], false⟩

/-- A parallelized wrapper right before `_put_on_device` wraps its model. -/
def exWrapperRaw : ModelWrapper :=
  ⟨exArgs, Task.ACTION_GENERATOR, true, some (.raw exModule)⟩

/-- A parallelized wrapper holding its module in a data-parallel container. -/
def exWrapper : ModelWrapper :=
  ⟨exArgs, Task.ACTION_GENERATOR, true, some (.dataParallel (.raw exModule))⟩

/-- State of `exWrapper` after `train()`. -/
def exWrapperTrainOn : ModelWrapper :=
  ⟨exArgs, Task.ACTION_GENERATOR, true,
    some (.dataParallel (.raw ⟨[("weight", 3), ("bias", 4)], true⟩))⟩

/-- State of `exWrapper` after `eval()`. -/
def exWrapperEvalOff : ModelWrapper :=
  ⟨exArgs, Task.ACTION_GENERATOR, true,
    some (.dataParallel (.raw ⟨[("weight", 3), ("bias", 4)], false⟩))⟩

/-- A concrete filesystem holding one checkpoint file. -/
def exFS : FS := [("ckpt", [("weight", 7), ("bias", 8)])]

/-- State of `exWrapper` after `load("ckpt")` from `exFS`. -/
def exWrapperLoaded : ModelWrapper :=
  ⟨exArgs, Task.ACTION_GENERATOR, true,
    some (.dataParallel (.raw ⟨[("weight", 7), ("bias", 8)], false⟩))⟩

/-! ## Claim theorems about the model wrapper -/

/-- C3: for every wrapper, `save(filename)` followed by `load(filename)`
restores the saved module's parameter set, whether or not either wrapper is
parallelized; both operations act on the unwrapped underlying module, so the
checkpoint written is always the canonical non-parallel parameter set
`m.params` (no data-parallel name prefixes). -/
theorem save_load_roundtrip (margs margs2 : ModelArgs) (dc dc2 : Nat)
    (m m2 : Module) (filename : String) (fs : FS) :
    ∃ (w1 w2 w2' : ModelWrapper),
      mkModelWrapper margs dc m = some w1 ∧
      w1.save filename fs = some ((filename, m.params) :: fs) ∧
      mkModelWrapper margs2 dc2 m2 = some w2 ∧
      w2.load filename ((filename, m.params) :: fs) = some w2' ∧
      w2'.named_parameters = some m.params := by
  by_cases h1 : 1 < dc <;> by_cases h2 : 1 < dc2
  · refine ⟨_, _, ⟨margs2, margs2.task, true,
      some (.dataParallel (.raw ⟨m.params, m2.training⟩))⟩,
      mkModelWrapper_parallel margs h1 m, rfl,
      mkModelWrapper_parallel margs2 h2 m2, ?_, rfl⟩
    simp [ModelWrapper.load, WrappedModule.module, WrappedModule.loadMethod,
      Module.load, List.lookup]
  · refine ⟨_, _, ⟨margs2, margs2.task, false,
      some (.raw ⟨m.params, m2.training⟩)⟩,
      mkModelWrapper_parallel margs h1 m, rfl,
      mkModelWrapper_serial margs2 h2 m2, ?_, rfl⟩
    simp [ModelWrapper.load, WrappedModule.loadMethod, Module.load, List.lookup]
  · refine ⟨_, _, ⟨margs2, margs2.task, true,
      some (.dataParallel (.raw ⟨m.params, m2.training⟩))⟩,
      mkModelWrapper_serial margs h1 m, rfl,
      mkModelWrapper_parallel margs2 h2 m2, ?_, rfl⟩
    simp [ModelWrapper.load, WrappedModule.module, WrappedModule.loadMethod,
      Module.load, List.lookup]
  · refine ⟨_, _, ⟨margs2, margs2.task, false,
      some (.raw ⟨m.params, m2.training⟩)⟩,
      mkModelWrapper_serial margs h1 m, rfl,
      mkModelWrapper_serial margs2 h2 m2, ?_, rfl⟩
    simp [ModelWrapper.load, WrappedModule.loadMethod, Module.load, List.lookup]

/-- C4: the parallelization flag is decided at construction — true exactly
when more than one compute device is available — and no wrapper operation
changes it afterwards. -/
theorem parallelized_set_once :
    (∀ (margs : ModelArgs) (dc : Nat),
      (ModelWrapper.init margs dc).parallelized = decide (dc > 1)) ∧
    (∀ (w w' : ModelWrapper),
      w.put_on_device = some w' → w'.parallelized = w.parallelized) ∧
    (∀ (w w' : ModelWrapper),
      w.train = some w' → w'.parallelized = w.parallelized) ∧
    (∀ (w w' : ModelWrapper),
      w.eval = some w' → w'.parallelized = w.parallelized) ∧
    (∀ (w w' : ModelWrapper) (filename : String) (fs : FS),
      w.load filename fs = some w' → w'.parallelized = w.parallelized) ∧
    (∀ (w : ModelWrapper) (optimize : Module → Module) (best : String),
      (w.train_loop optimize best).1.parallelized = w.parallelized) := by
  refine ⟨?_, ?_, ?_, ?_, ?_, ?_⟩
  · intro margs dc
    by_cases h : dc > 1 <;> simp [ModelWrapper.init, h]
  · intro w w' h
    obtain ⟨mo, rfl⟩ := put_on_device_shape h
    rfl
  · intro w w' h
    obtain ⟨mo, rfl⟩ := train_shape h
    rfl
  · intro w w' h
    obtain ⟨mo, rfl⟩ := eval_shape h
    rfl
  · intro w w' filename fs h
    obtain ⟨mo, rfl⟩ := load_shape h
    rfl
  · intro w optimize best
    rfl

/-- Witness for C4 at concrete inputs: two devices parallelize, and
`_put_on_device`, `train`, `eval`, `load` and `train_loop` leave the flag
unchanged. -/
theorem parallelized_set_once_witness :
    (ModelWrapper.init exArgs 2).parallelized = decide (2 > 1) ∧
    exWrapper.parallelized = exWrapperRaw.parallelized ∧
    exWrapperTrainOn.parallelized = exWrapper.parallelized ∧
    exWrapperEvalOff.parallelized = exWrapper.parallelized ∧
    exWrapperLoaded.parallelized = exWrapper.parallelized ∧
    (exWrapper.train_loop id "best").1.parallelized = exWrapper.parallelized :=
  ⟨parallelized_set_once.1 exArgs 2,
   parallelized_set_once.2.1 exWrapperRaw exWrapper rfl,
   parallelized_set_once.2.2.1 exWrapper exWrapperTrainOn rfl,
   parallelized_set_once.2.2.2.1 exWrapper exWrapperEvalOff rfl,
   parallelized_set_once.2.2.2.2.1 exWrapper exWrapperLoaded "ckpt" exFS (by decide),
   parallelized_set_once.2.2.2.2.2 exWrapper id "best"⟩

/-- C5: for every constructed wrapper, `named_parameters()` and
`parameters()` both expose the parameter set of the owned underlying module,
so the result is the same whether or not the module is wrapped for
multi-device execution. -/
theorem named_parameters_and_parameters (margs : ModelArgs) (dc : Nat)
    (m : Module) :
    ∃ w, mkModelWrapper margs dc m = some w ∧
      w.named_parameters = some m.params ∧
      w.parameters = some (m.params.map Prod.snd) := by
  by_cases h : 1 < dc
  · exact ⟨_, mkModelWrapper_parallel margs h m, rfl, rfl⟩
  · exact ⟨_, mkModelWrapper_serial margs h m, rfl, rfl⟩

/-- C7: for every constructed wrapper, `get_predictions(*args)` forwards to
the underlying module's `get_predictions` — bypassing the data-parallel
container when parallelized — and returns its result unchanged. -/
theorem get_predictions_forwards (margs : ModelArgs) (dc : Nat) (m : Module)
    (a : List Nat) :
    ∃ w, mkModelWrapper margs dc m = some w ∧
      w.get_predictions a = some (m.get_predictions a) := by
  by_cases h : 1 < dc
  · exact ⟨_, mkModelWrapper_parallel margs h m, rfl⟩
  · exact ⟨_, mkModelWrapper_serial margs h m, rfl⟩

/-- C8: `get_task()` returns exactly the task read from the model-arguments
configuration at construction, and no wrapper operation changes the stored
task. -/
theorem get_task_frame :
    (∀ (margs : ModelArgs) (dc : Nat),
      (ModelWrapper.init margs dc).get_task = margs.get_task) ∧
    (∀ (margs : ModelArgs) (dc : Nat) (m : Module),
      ∃ w, mkModelWrapper margs dc m = some w ∧ w.get_task = margs.get_task) ∧
    (∀ (w w' : ModelWrapper),
      w.put_on_device = some w' → w'.get_task = w.get_task) ∧
    (∀ (w w' : ModelWrapper),
      w.train = some w' → w'.get_task = w.get_task) ∧
    (∀ (w w' : ModelWrapper),
      w.eval = some w' → w'.get_task = w.get_task) ∧
    (∀ (w w' : ModelWrapper) (filename : String) (fs : FS),
      w.load filename fs = some w' → w'.get_task = w.get_task) ∧
    (∀ (w : ModelWrapper) (optimize : Module → Module) (best : String),
      (w.train_loop optimize best).1.get_task = w.get_task) := by
  refine ⟨?_, ?_, ?_, ?_, ?_, ?_, ?_⟩
  · intro margs dc
    rfl
  · intro margs dc m
    by_cases h : 1 < dc
    · exact ⟨_, mkModelWrapper_parallel margs h m, rfl⟩
    · exact ⟨_, mkModelWrapper_serial margs h m, rfl⟩
  · intro w w' h
    obtain ⟨mo, rfl⟩ := put_on_device_shape h
    rfl
  · intro w w' h
    obtain ⟨mo, rfl⟩ := train_shape h
    rfl
  · intro w w' h
    obtain ⟨mo, rfl⟩ := eval_shape h
    rfl
  · intro w w' filename fs h
    obtain ⟨mo, rfl⟩ := load_shape h
    rfl
  · intro w optimize best
    rfl

/-- Witness for C8 at concrete inputs: the constructed wrapper reports the
configured task, and every operation leaves it unchanged. -/
theorem get_task_frame_witness :
    (ModelWrapper.init exArgs 2).get_task = exArgs.get_task ∧
    exWrapper.get_task = exWrapperRaw.get_task ∧
    exWrapperTrainOn.get_task = exWrapper.get_task ∧
    exWrapperEvalOff.get_task = exWrapper.get_task ∧
    exWrapperLoaded.get_task = exWrapper.get_task ∧
    (exWrapper.train_loop id "best").1.get_task = exWrapper.get_task :=
  ⟨get_task_frame.1 exArgs 2,
   get_task_frame.2.2.1 exWrapperRaw exWrapper rfl,
   get_task_frame.2.2.2.1 exWrapper exWrapperTrainOn rfl,
   get_task_frame.2.2.2.2.1 exWrapper exWrapperEvalOff rfl,
   get_task_frame.2.2.2.2.2.1 exWrapper exWrapperLoaded "ckpt" exFS (by decide),
   get_task_frame.2.2.2.2.2.2 exWrapper id "best"⟩

end Cerealbar

namespace Cerealbar

/-! ## The training driver (`training.py`, function `train`)

The driver's side effects are modelled as an event trace; the resolved
vocabulary and the runtime fault (if any) are returned alongside.  External
collaborators (data loading, the vocabulary loader, the training loop's best
checkpoint, the factory's choice of wrapper class, the evaluation metric
names) are oracles supplied in the configuration record.
-/

/-- The distinct Slack notifications sent by `train` (their float formatting
is not modelled; each message is identified by its content). -/
inductive SlackMsg where
  | starting
  | finishedTraining (bestEpochFilename : String)
  | finalGoalAccuracy
  | actionMetric (metricName : String)
deriving DecidableEq, Repr

/-- The observable effects of `train`, in program order. -/
inductive TrainEvent where
  | slackMessage (username : String) (message : SlackMsg) (channel : String)
  | saveArgs (dir : String)
  | saveValidationSplit (dir : String)
  | loadVocabulary (dir : String)
  | saveVocabulary (dir : String)
  | createModelWrapper (loadPretrained : Bool)
  | trainLoopRun
  | modelLoad (filename : String)
  | planMetricResults
  | executionAccuracies
deriving DecidableEq, Repr

/-- Runtime faults of the driver. -/
inductive TrainError where
  | nameError (name : String)
  | assertionError
deriving DecidableEq, Repr

/-- Model of `SLACK_CHANNEL` (training.py line 25). -/
def SLACK_CHANNEL : String := ""

/-- The fully resolved configuration consumed by `train`, holding the values
the driver reads from its argument bundle and from its collaborators. -/
structure TrainConfig where
  experiment_name : String
  log_with_slack : Bool
  save_directory : String
  pretrained_plan_predictor : Bool
  pretrained_plan_predictor_filepath : String
  end_to_end : Bool
  task : Task
  instruction_vocabulary : List String
  load_vocabulary : String → List String
  best_epoch_filename : String
  model_is_action_generator_wrapper : Bool
  action_metric_names : List String

/-- Every name bound in the scope of `train` during the post-training
branch (training.py lines 100-124): the function's parameter and local
assignments, and the module's runtime global bindings.  The imports under
`if TYPE_CHECKING:` (line 18-22: `List`, `model_args`, `training_args`,
`model_wrapper`) are not bound at runtime and so are absent.  Python
builtins are omitted; none of them is named `final_goal_acc` or
`model_args`. -/
def trainScopeNames : List String :=
  ["args", "training_arguments", "crayon_client", "experiment",
   "train_dataset", "dev_dataset", "dataset", "task", "vocab_file",
   "vocabulary", "model", "best_epoch_filename", "predictions",
   "logging", "pycrayon", "program_args", "dataset_split", "game_dataset",
   "loading", "action_generator_metrics", "plan_metrics", "util",
   "action_generator_model_wrapper", "create_model_wrapper",
   "SLACK_CHANNEL", "train", "TYPE_CHECKING", "annotations"]

/-- Python name resolution over `train`'s scope. -/
def nameInTrainScope (n : String) : Bool :=
  trainScopeNames.contains n

/-- The name `final_goal_acc` referenced on training.py line 108 is bound
nowhere in `train`'s scope. -/
theorem final_goal_acc_not_in_scope :
    nameInTrainScope "final_goal_acc" = false := by decide

/-- The name `model_args` referenced on training.py lines 100 and 111 is
bound nowhere in `train`'s runtime scope: its import lives under
`if TYPE_CHECKING:` (line 20), which is false at runtime, and the
`from __future__ import annotations` future defers only annotations, not
these expressions. -/
theorem model_args_not_in_scope :
    nameInTrainScope "model_args" = false := by decide

/-- Vocabulary resolution (training.py lines 69-78): with a pretrained plan
predictor, load the vocabulary from the filepath's directory; otherwise take
the dataset's instruction vocabulary and save it to the save directory. -/
def resolveVocabulary (cfg : TrainConfig) : List TrainEvent × List String :=
  if cfg.pretrained_plan_predictor then
    let vocab_file := vocabFileOf cfg.pretrained_plan_predictor_filepath
    ([TrainEvent.loadVocabulary vocab_file], cfg.load_vocabulary vocab_file)
  else
    ([TrainEvent.saveVocabulary cfg.save_directory], cfg.instruction_vocabulary)

/-- Task branch body (training.py lines 100-124) as written, i.e. the
behavior the branch would have if its conditions could be evaluated: for the
plan predictor, compute plan metrics, then — when Slack logging is on —
format a message that reads the unbound name `final_goal_acc`; for the
action generator, assert the wrapper's class before computing execution
accuracies and reporting each metric; any other task runs no evaluation. -/
def taskBranch (cfg : TrainConfig) :
    List TrainEvent × Option TrainError :=
  match cfg.task with
  | Task.PLAN_PREDICTOR =>
      if cfg.log_with_slack then
        if nameInTrainScope "final_goal_acc" then
          ([TrainEvent.planMetricResults,
            TrainEvent.slackMessage cfg.experiment_name
              SlackMsg.finalGoalAccuracy SLACK_CHANNEL], none)
        else
          ([TrainEvent.planMetricResults],
            some (TrainError.nameError "final_goal_acc"))
      else
        ([TrainEvent.planMetricResults], none)
  | Task.ACTION_GENERATOR =>
      if cfg.model_is_action_generator_wrapper then
        (TrainEvent.executionAccuracies ::
          (if cfg.log_with_slack then
            cfg.action_metric_names.map (fun n =>
              TrainEvent.slackMessage cfg.experiment_name
                (SlackMsg.actionMetric n) SLACK_CHANNEL)
          else []), none)
      else
        ([], some TrainError.assertionError)
  | Task.OTHER => ([], none)

/-- Post-training evaluation as executed (training.py lines 100-124): the
branch condition on line 100 evaluates `model_args.Task.PLAN_PREDICTOR`,
which first resolves the name `model_args`; that name is not bound in
`train`'s runtime scope (its import is under `if TYPE_CHECKING:`), so the
run faults with a NameError at the condition, before any branch of
`taskBranch` executes. -/
def postTrainingEvaluation (cfg : TrainConfig) :
    List TrainEvent × Option TrainError :=
  if nameInTrainScope "model_args" then
    taskBranch cfg
  else
    ([], some (TrainError.nameError "model_args"))

/-- Every run reaching the post-training branch faults with the NameError on
`model_args` and emits no evaluation event. -/
theorem postTrainingEvaluation_faults (cfg : TrainConfig) :
    postTrainingEvaluation cfg = ([], some (TrainError.nameError "model_args")) := by
  simp [postTrainingEvaluation, model_args_not_in_scope]

/-- The outcome of a `train` run: the event trace, the resolved vocabulary,
and the fault terminating the run, if any. -/
structure TrainResult where
  events : List TrainEvent
  vocabulary : List String
  error : Option TrainError
deriving DecidableEq, Repr

/-- The `train` driver (training.py lines 28-124): optional start
notification, saving the arguments and the validation split, vocabulary
resolution, model construction, the training loop, reloading the best
checkpoint, optional completion notification, then the post-training
evaluation — which faults at its branch condition on every run. -/
def train (cfg : TrainConfig) : TrainResult :=
  let startEvents :=
    (if cfg.log_with_slack then
      [TrainEvent.slackMessage cfg.experiment_name SlackMsg.starting SLACK_CHANNEL]
    else []) ++
    [TrainEvent.saveArgs cfg.save_directory,
     TrainEvent.saveValidationSplit cfg.save_directory]
  let vres := resolveVocabulary cfg
  let modelEvents :=
    [TrainEvent.createModelWrapper cfg.end_to_end,
     TrainEvent.trainLoopRun,
     TrainEvent.modelLoad cfg.best_epoch_filename] ++
    (if cfg.log_with_slack then
      [TrainEvent.slackMessage cfg.experiment_name
        (SlackMsg.finishedTraining cfg.best_epoch_filename) SLACK_CHANNEL]
    else [])
  let tailResult := postTrainingEvaluation cfg
  { events := startEvents ++ vres.1 ++ modelEvents ++ tailResult.1
    vocabulary := vres.2
    error := tailResult.2 }

end Cerealbar

namespace Cerealbar

/-! ## Concrete configurations used by witnesses -/

/-- A concrete configuration: plan-predictor task, Slack logging on, no
pretrained plan predictor. -/
def cfgPlan : TrainConfig :=
  { experiment_name := "exp"
    log_with_slack := true
    save_directory := "save"
    pretrained_plan_predictor := false
    pretrained_plan_predictor_filepath := "ckpt/plan.pt"
    end_to_end := false
    task := Task.PLAN_PREDICTOR
    instruction_vocabulary := ["walk", "turn"]
    load_vocabulary := fun _ => ["pre"]
    best_epoch_filename := "best.pt"
    model_is_action_generator_wrapper := true
    action_metric_names := ["accuracy"] }

/-- Configuration `cfgPlan` with a pretrained plan predictor configured. -/
def cfgPretrained : TrainConfig :=
  { cfgPlan with pretrained_plan_predictor := true }

/-- Configuration `cfgPlan` with the action-generator task. -/
def cfgAction : TrainConfig :=
  { cfgPlan with task := Task.ACTION_GENERATOR }

/-- Configuration `cfgAction` where the factory returned a wrapper that is not an
`ActionGeneratorModelWrapper`. -/
def cfgActionBad : TrainConfig :=
  { cfgAction with model_is_action_generator_wrapper := false }

/-! ## Claim theorems about the driver -/

/-- C1: vocabulary resolution in `train` is exclusive and exhaustive on the
pretrained-plan-predictor flag.  With the flag set, the vocabulary is loaded
from the directory computed from the pretrained filepath and no vocabulary
is ever saved; with it clear, the vocabulary is the dataset's instruction
vocabulary and it is saved to the training save directory, with no load. -/
theorem vocabulary_resolution (cfg : TrainConfig) :
    (cfg.pretrained_plan_predictor = true →
      (train cfg).vocabulary =
        cfg.load_vocabulary (vocabFileOf cfg.pretrained_plan_predictor_filepath) ∧
      TrainEvent.loadVocabulary (vocabFileOf cfg.pretrained_plan_predictor_filepath)
        ∈ (train cfg).events ∧
      ∀ d, TrainEvent.saveVocabulary d ∉ (train cfg).events) ∧
    (cfg.pretrained_plan_predictor = false →
      (train cfg).vocabulary = cfg.instruction_vocabulary ∧
      TrainEvent.saveVocabulary cfg.save_directory ∈ (train cfg).events ∧
      ∀ d, TrainEvent.loadVocabulary d ∉ (train cfg).events) := by
  constructor
  · intro h
    refine ⟨by simp [train, resolveVocabulary, h], ?_, ?_⟩
    · simp [train, resolveVocabulary, h]
    · intro d hd
      simp only [train, resolveVocabulary, h, if_true, List.mem_append,
        List.mem_cons, List.mem_singleton] at hd
      rcases hd with ((hd | hd) | hd) | hd
      · split at hd <;> simp_all
      · simp_all
      · simp_all
      · simp [postTrainingEvaluation_faults] at hd
  · intro h
    refine ⟨by simp [train, resolveVocabulary, h], ?_, ?_⟩
    · simp [train, resolveVocabulary, h]
    · intro d hd
      simp only [train, resolveVocabulary, h, if_false, List.mem_append,
        List.mem_cons, List.mem_singleton] at hd
      rcases hd with ((hd | hd) | hd) | hd
      · split at hd <;> simp_all
      · simp_all
      · simp_all
      · simp [postTrainingEvaluation_faults] at hd

/-- Witness for C1 at concrete configurations: a run with the pretrained
flag loads and never saves a vocabulary; a run without it derives and saves
the dataset vocabulary and never loads one. -/
theorem vocabulary_resolution_witness :
    ((train cfgPretrained).vocabulary =
      cfgPretrained.load_vocabulary
        (vocabFileOf cfgPretrained.pretrained_plan_predictor_filepath) ∧
     TrainEvent.loadVocabulary
        (vocabFileOf cfgPretrained.pretrained_plan_predictor_filepath)
        ∈ (train cfgPretrained).events ∧
     TrainEvent.saveVocabulary "save" ∉ (train cfgPretrained).events) ∧
    ((train cfgPlan).vocabulary = cfgPlan.instruction_vocabulary ∧
     TrainEvent.saveVocabulary cfgPlan.save_directory ∈ (train cfgPlan).events ∧
     TrainEvent.loadVocabulary "ckpt" ∉ (train cfgPlan).events) :=
  ⟨⟨((vocabulary_resolution cfgPretrained).1 rfl).1,
    ((vocabulary_resolution cfgPretrained).1 rfl).2.1,
    ((vocabulary_resolution cfgPretrained).1 rfl).2.2 "save"⟩,
   ⟨((vocabulary_resolution cfgPlan).2 rfl).1,
    ((vocabulary_resolution cfgPlan).2 rfl).2.1,
    ((vocabulary_resolution cfgPlan).2 rfl).2.2 "ckpt"⟩⟩

/-- C2 evaluated on the code: the claimed task branching never executes.
For every configuration the post-training branch condition faults with the
NameError on `model_args` (imported only under TYPE_CHECKING), so neither
the plan-metrics path nor the action-accuracy path ever runs and the run
terminates with that fault. -/
theorem task_branching_fault (cfg : TrainConfig) :
    (train cfg).error = some (TrainError.nameError "model_args") ∧
    TrainEvent.planMetricResults ∉ (train cfg).events ∧
    TrainEvent.executionAccuracies ∉ (train cfg).events ∧
    nameInTrainScope "model_args" = false := by
  refine ⟨?_, ?_, ?_, model_args_not_in_scope⟩
  · simp [train, postTrainingEvaluation_faults]
  · cases hp : cfg.pretrained_plan_predictor <;> cases hs : cfg.log_with_slack <;>
      simp [train, resolveVocabulary, postTrainingEvaluation_faults, hp, hs]
  · cases hp : cfg.pretrained_plan_predictor <;> cases hs : cfg.log_with_slack <;>
      simp [train, resolveVocabulary, postTrainingEvaluation_faults, hp, hs]

/-- C6 evaluated at the failing input (plan-predictor task, Slack logging
on): the run faults at the task-branch condition with the NameError on
`model_args` before computing plan metrics or sending the goal-accuracy
Slack message; independently, the reporting statement itself (training.py
line 108) reads the name `final_goal_acc`, which is also bound nowhere in
`train`, so the claimed report could not complete even if the branch were
reached. -/
theorem plan_slack_name_error :
    (train cfgPlan).error = some (TrainError.nameError "model_args") ∧
    TrainEvent.planMetricResults ∉ (train cfgPlan).events ∧
    TrainEvent.slackMessage cfgPlan.experiment_name SlackMsg.finalGoalAccuracy
      SLACK_CHANNEL ∉ (train cfgPlan).events ∧
    nameInTrainScope "final_goal_acc" = false := by
  refine ⟨by decide, by decide, by decide, final_goal_acc_not_in_scope⟩

/-- C9 counterexample: with the action-generator task and a wrapper of the
wrong class, the run does not fail at the isinstance assertion — it faults
with the NameError on `model_args` raised by the task-branch condition on
line 100, which executes before line 111 is reached. -/
theorem action_generator_assertion_refuted :
    (postTrainingEvaluation cfgActionBad).2 =
      some (TrainError.nameError "model_args") ∧
    (postTrainingEvaluation cfgActionBad).2 ≠ some TrainError.assertionError := by
  refine ⟨by decide, by decide⟩

/-- C9 as amended: with the action-generator task and a wrapper of the wrong
class, the run still fails before any evaluation event is emitted, but with
the NameError on `model_args` from the task-branch condition rather than at
the assertion, which is unreachable; in the branch body as written the
isinstance assertion does precede the execution-accuracy evaluation and
would stop it. -/
theorem action_generator_name_error_first (cfg : TrainConfig)
    (htask : cfg.task = Task.ACTION_GENERATOR)
    (hg : cfg.model_is_action_generator_wrapper = false) :
    (postTrainingEvaluation cfg).2 = some (TrainError.nameError "model_args") ∧
    (postTrainingEvaluation cfg).1 = [] ∧
    (taskBranch cfg).2 = some TrainError.assertionError ∧
    (taskBranch cfg).1 = [] := by
  refine ⟨?_, ?_, ?_, ?_⟩ <;>
    simp [postTrainingEvaluation_faults, taskBranch, htask, hg]

/-- Witness for C9's amended theorem at a concrete configuration. -/
theorem action_generator_name_error_first_witness :
    (postTrainingEvaluation cfgActionBad).2 =
      some (TrainError.nameError "model_args") ∧
    (postTrainingEvaluation cfgActionBad).1 = [] ∧
    (taskBranch cfgActionBad).2 = some TrainError.assertionError ∧
    (taskBranch cfgActionBad).1 = [] :=
  action_generator_name_error_first cfgActionBad rfl rfl

end Cerealbar
